import Mathlib

/-!
Verification of the navigation / obstacle-avoidance engine of the
`avp-accessible-mod` repository (`src/NakedAVP/src/accessibility.cpp`).

The C code is shallowly embedded: machine integers become `Int`/`Nat`
(the original arithmetic stays inside ranges where C `int` does not
overflow, except where noted), C `float` arithmetic on the audio-pitch
path becomes exact `ℚ` arithmetic, the process-wide mutable state
(`AutoNavState`, the `static` locals of `AutoNav_Update`, the
announcement-cooldown clocks) becomes explicit state records threaded
through the functions, and side effects (TTS, OpenAL, logging) are
either dropped or returned as explicit message values.
-/

namespace AvpAccess

/- ============================================================
   Obstacle height classification (`AnalyzeObstruction`)
   ============================================================ -/

/-- `MAXIMUM_STEP_HEIGHT` from accessibility.cpp (450 units). -/
def MAXIMUM_STEP_HEIGHT : Int := 450

/-- `JUMP_CLEARANCE_HEIGHT` from accessibility.cpp (1200 units). -/
def JUMP_CLEARANCE_HEIGHT : Int := 1200

/-- Result of `AnalyzeObstruction`: the two out-parameters
`*isJumpable` / `*isClearable`. -/
structure ObstructionAnalysis where
  isJumpable : Bool
  isClearable : Bool
deriving DecidableEq, Repr

/-- Embedding of `AnalyzeObstruction(playerPos, hitPoint, ...)`.
Only the `vy` components of the two vectors are read by the C code,
so the embedding takes them directly.  `heightDiff = playerPos->vy -
hitPoint->vy`; jumpable iff `-450 < heightDiff < 450`; clearable iff
`heightDiff > -1200` (the C code has no upper bound on this test). -/
def AnalyzeObstruction (playerVy hitVy : Int) : ObstructionAnalysis :=
  let heightDiff := playerVy - hitVy
  { isJumpable :=
      decide (-MAXIMUM_STEP_HEIGHT < heightDiff ∧ heightDiff < MAXIMUM_STEP_HEIGHT)
    isClearable := decide (-JUMP_CLEARANCE_HEIGHT < heightDiff) }

/- ============================================================
   Announcement priority / cooldown arbiter
   ============================================================ -/

/-- `ANNOUNCE_PRIORITY` enum. -/
inductive AnnouncePriority where
  | critical
  | high
  | normal
  | low
deriving DecidableEq, Repr

/-- `COOLDOWN_AFTER_CRITICAL_MS`. -/
def COOLDOWN_AFTER_CRITICAL_MS : Nat := 600

/-- `COOLDOWN_AFTER_HIGH_MS`. -/
def COOLDOWN_AFTER_HIGH_MS : Nat := 400

/-- `COOLDOWN_BETWEEN_SAME_MS`. -/
def COOLDOWN_BETWEEN_SAME_MS : Nat := 200

/-- The three `static unsigned int g_Last*AnnouncementTime` globals,
gathered into one record (values below `2^32`). -/
structure AnnounceClock where
  lastCritical : Nat
  lastHigh : Nat
  lastNormal : Nat
deriving DecidableEq, Repr

/-- C `unsigned int` subtraction `a - b` (modulo `2^32`), used by the
cooldown comparisons. -/
def usub32 (a b : Nat) : Nat := (a + 2 ^ 32 - b % 2 ^ 32) % 2 ^ 32

/-- Embedding of `Announcement_IsAllowed(priority)`; the C function reads
`GetTickCount()`, passed here as `currentTime`. -/
def Announcement_IsAllowed (c : AnnounceClock) (currentTime : Nat)
    (priority : AnnouncePriority) : Bool :=
  match priority with
  | .critical => true
  | .high =>
      if usub32 currentTime c.lastCritical < COOLDOWN_AFTER_CRITICAL_MS then false
      else true
  | .normal =>
      if usub32 currentTime c.lastCritical < COOLDOWN_AFTER_CRITICAL_MS then false
      else if usub32 currentTime c.lastHigh < COOLDOWN_AFTER_HIGH_MS then false
      else true
  | .low =>
      if usub32 currentTime c.lastCritical < COOLDOWN_AFTER_CRITICAL_MS then false
      else if usub32 currentTime c.lastHigh < COOLDOWN_AFTER_HIGH_MS then false
      else if usub32 currentTime c.lastNormal < COOLDOWN_BETWEEN_SAME_MS then false
      else true

/-- Embedding of `Announcement_RecordTime(priority)`: stamps
`currentTime` into the clock slot of that tier only; `LOW` records
nothing. -/
def Announcement_RecordTime (c : AnnounceClock) (currentTime : Nat)
    (priority : AnnouncePriority) : AnnounceClock :=
  match priority with
  | .critical => { c with lastCritical := currentTime }
  | .high => { c with lastHigh := currentTime }
  | .normal => { c with lastNormal := currentTime }
  | .low => c

/- ============================================================
   Navigation strategy state machine
   ============================================================ -/

/-- `NAV_STRATEGY` enum (unnamed header, part_001). -/
inductive NavStrategy where
  | direct
  | wallFollowLeft
  | wallFollowRight
  | backtrack
  | wideAroundLeft
  | wideAroundRight
deriving DecidableEq, Repr

/-- `NAV_TARGET_TYPE` enum (unnamed header, part_001). -/
inductive NavTargetType where
  | interactive
  | npc
  | exitDoor
  | item
deriving DecidableEq, Repr

/-- `POSITION_RECORD` (unnamed header, part_001). -/
structure PositionRecord where
  x : Int
  y : Int
  z : Int
  timestamp : Nat
deriving DecidableEq, Repr

/-- `NAV_POSITION_HISTORY_SIZE` (30 samples, about 5 seconds). -/
def NAV_POSITION_HISTORY_SIZE : Nat := 30

/-- The `AUTONAV_STATE` global (unnamed header, part_001).  The C flags
are `int` used as booleans and become `Bool`; the fixed array
`position_history[30]` becomes a total map from slot number to record
(only slots `0..29` are ever written from an in-range start).  The
`door_wait`/`lift_track` sub-records are omitted: no function modelled
here reads or writes them except `AutoNav_Init`, which clears them. -/
structure AutoNavSt where
  enabled : Bool
  auto_rotate : Bool
  auto_move : Bool
  target_type : NavTargetType
  target_x : Int
  target_y : Int
  target_z : Int
  target_distance : Int
  target_name : Option String
  position_history : Nat → PositionRecord
  history_index : Nat
  history_count : Nat
  last_announced_distance : Int
  closest_achieved : Int
  last_progress_time : Nat
  current_strategy : NavStrategy
  strategy_frames : Int
  strategy_failures : Int
  arrival_announced : Bool
  target_reached : Bool

/-- Embedding of `AutoNav_Init()`. -/
def AutoNav_Init : AutoNavSt where
  enabled := false
  auto_rotate := false
  auto_move := false
  target_type := .interactive
  target_x := 0
  target_y := 0
  target_z := 0
  target_distance := 0
  target_name := none
  position_history := fun _ => { x := 0, y := 0, z := 0, timestamp := 0 }
  history_index := 0
  history_count := 0
  last_announced_distance := 0
  closest_achieved := 999999
  last_progress_time := 0
  current_strategy := .direct
  strategy_frames := 0
  strategy_failures := 0
  arrival_announced := false
  target_reached := false

/-- Embedding of `PathFind_RecordPosition(x, y, z)`; `now` is the
`GetTickCount()` value stored into the record's timestamp. -/
def PathFind_RecordPosition (x y z : Int) (now : Nat) (s : AutoNavSt) : AutoNavSt :=
  { s with
    position_history :=
      Function.update s.position_history s.history_index
        { x := x, y := y, z := z, timestamp := now }
    history_index := (s.history_index + 1) % NAV_POSITION_HISTORY_SIZE
    history_count :=
      if s.history_count < NAV_POSITION_HISTORY_SIZE then s.history_count + 1
      else s.history_count }

/-- Embedding of `PathFind_EscalateStrategy()` (TTS / log output
dropped).  `strategy_frames` is zeroed first, then the strategy steps
through the fixed cycle; completing the cycle at `WIDE_AROUND_RIGHT`
increments `strategy_failures`, and if that counter has reached 2 the
function clears `auto_move` as well. -/
def PathFind_EscalateStrategy (s : AutoNavSt) : AutoNavSt :=
  let s := { s with strategy_frames := 0 }
  match s.current_strategy with
  | .direct => { s with current_strategy := .wallFollowLeft }
  | .wallFollowLeft => { s with current_strategy := .wallFollowRight }
  | .wallFollowRight => { s with current_strategy := .backtrack }
  | .backtrack => { s with current_strategy := .wideAroundLeft }
  | .wideAroundLeft => { s with current_strategy := .wideAroundRight }
  | .wideAroundRight =>
      let s := { s with strategy_failures := s.strategy_failures + 1 }
      if 2 ≤ s.strategy_failures then
        { s with auto_move := false, current_strategy := .direct }
      else
        { s with current_strategy := .direct }

/-- The escalation order stated by the spec: the successor of each
strategy in the fixed cycle
DIRECT → WALL_FOLLOW_LEFT → WALL_FOLLOW_RIGHT → BACKTRACK →
WIDE_AROUND_LEFT → WIDE_AROUND_RIGHT → DIRECT. -/
def strategySuccessor : NavStrategy → NavStrategy
  | .direct => .wallFollowLeft
  | .wallFollowLeft => .wallFollowRight
  | .wallFollowRight => .backtrack
  | .backtrack => .wideAroundLeft
  | .wideAroundLeft => .wideAroundRight
  | .wideAroundRight => .direct

/-- A sequence of `PathFind_RecordPosition` calls, run left to right. -/
def recordPositions (samples : List (Int × Int × Int × Nat)) (s : AutoNavSt) :
    AutoNavSt :=
  samples.foldl
    (fun s p => PathFind_RecordPosition p.1 p.2.1 p.2.2.1 p.2.2.2 s) s

/- ============================================================
   Arrival and progress handling
   ============================================================ -/

/-- `ARRIVAL_DISTANCE` (2.5 meters in game units). -/
def ARRIVAL_DISTANCE : Int := 2500

/-- The contextual arrival messages built by `AutoNav_CheckArrival`:
`NAV_TARGET_INTERACTIVE` interpolates the target name (NULL falls back
to "target"), `NAV_TARGET_ITEM` has a fixed pickup message, and every
other target type gets the generic message. -/
def arrivalMessage (tt : NavTargetType) (name : Option String) : String :=
  match tt with
  | .interactive => "Arrived at " ++ name.getD "target" ++ ". Press SPACE to interact."
  | .item => "Item nearby. Walk forward to collect."
  | _ => "Target reached."

/-- Embedding of `AutoNav_CheckArrival()`: the second component is the
message passed to `TTS_Speak`, `none` when the function returns without
speaking. -/
def AutoNav_CheckArrival (s : AutoNavSt) : AutoNavSt × Option String :=
  if !s.enabled then (s, none)
  else if s.arrival_announced then (s, none)
  else if ARRIVAL_DISTANCE ≤ s.target_distance then (s, none)
  else
    ({ s with
        arrival_announced := true
        target_reached := true
        auto_move := false },
      some (arrivalMessage s.target_type s.target_name))

/- ============================================================
   Target selection (`AutoNav_FindTarget`)
   ============================================================ -/

/-- The subset of the `AVP_BEHAVIOUR_TYPE` tags that the navigation
functions discriminate; every remaining tag takes the default branch in
all of them and is collapsed into `otherBehaviour`. -/
inductive BehaviourType where
  | alien
  | queenAlien
  | faceHugger
  | predator
  | xenoborg
  | marine
  | seal
  | binarySwitch
  | linkSwitch
  | database
  | lift
  | proximityDoor
  | liftDoor
  | switchDoor
  | generator
  | inanimateObject
  | otherBehaviour
deriving DecidableEq, Repr, Fintype

/-- `I_PLAYER_TYPE`: the three playable species. -/
inductive PlayerType where
  | marine
  | predator
  | alien
deriving DecidableEq, Repr, Fintype

/-- Embedding of `IsNavTarget(bhvr, targetType)`. -/
def IsNavTarget (bhvr : BehaviourType) (targetType : NavTargetType) : Bool :=
  match targetType with
  | .interactive =>
      decide (bhvr = .binarySwitch ∨ bhvr = .linkSwitch ∨ bhvr = .database ∨
        bhvr = .lift ∨ bhvr = .proximityDoor ∨ bhvr = .liftDoor ∨
        bhvr = .switchDoor ∨ bhvr = .generator)
  | .npc =>
      decide (bhvr = .alien ∨ bhvr = .queenAlien ∨ bhvr = .faceHugger ∨
        bhvr = .predator ∨ bhvr = .xenoborg ∨ bhvr = .marine ∨ bhvr = .seal)
  | .exitDoor =>
      decide (bhvr = .proximityDoor ∨ bhvr = .liftDoor ∨ bhvr = .switchDoor ∨
        bhvr = .lift)
  | .item => decide (bhvr = .inanimateObject)

/-- Embedding of `IsEntityThreat(bhvr, playerType)`. -/
def IsEntityThreat (bhvr : BehaviourType) (playerType : PlayerType) : Bool :=
  match bhvr with
  | .alien | .queenAlien | .faceHugger =>
      decide (playerType = .marine ∨ playerType = .predator)
  | .predator => decide (playerType = .marine ∨ playerType = .alien)
  | .marine | .seal => decide (playerType = .alien ∨ playerType = .predator)
  | .xenoborg => true
  | _ => false

/-- Embedding of `GetNavTargetName(bhvr)`. -/
def GetNavTargetName (bhvr : BehaviourType) : String :=
  match bhvr with
  | .binarySwitch => "switch"
  | .linkSwitch => "switch"
  | .database => "terminal"
  | .lift => "lift"
  | .alien => "alien"
  | .queenAlien => "queen"
  | .faceHugger => "facehugger"
  | .predator => "predator"
  | .xenoborg => "xenoborg"
  | .marine => "marine"
  | .seal => "marine"
  | .proximityDoor => "door"
  | .liftDoor => "lift door"
  | .switchDoor => "door"
  | .inanimateObject => "item"
  | _ => "target"

/-- Embedding of `Accessibility_GetDistance`: the C code computes
`(int)sqrt((double)(dx*dx + dy*dy + dz*dz))`.  For every argument for
which the C `int` sum does not overflow the result is exactly the
integer square root, which is how it is modelled. -/
def Accessibility_GetDistance (x1 y1 z1 x2 y2 z2 : Int) : Int :=
  (Nat.sqrt (((x2 - x1) ^ 2 + (y2 - y1) ^ 2 + (z2 - z1) ^ 2).toNat) : Nat)

/-- A live world entity (`STRATEGYBLOCK` with a dynamics block):
behaviour tag `I_SBtype` and position. -/
structure Entity where
  bhvr : BehaviourType
  x : Int
  y : Int
  z : Int
deriving DecidableEq, Repr

/-- The score computed inside the `AutoNav_FindTarget` scan loop:
distance, minus 5000 for threats, minus 2000 for mission-relevant
interactives, minus 1500 for doors (sequential subtractions exactly as
in the C code). -/
def AutoNav_TargetScore (playerType : PlayerType) (dist : Int)
    (bhvr : BehaviourType) : Int :=
  let score := dist
  let score := if IsEntityThreat bhvr playerType then score - 5000 else score
  let score :=
    if bhvr = .binarySwitch ∨ bhvr = .linkSwitch ∨ bhvr = .database ∨
        bhvr = .generator then score - 2000
    else score
  let score :=
    if bhvr = .proximityDoor ∨ bhvr = .liftDoor ∨ bhvr = .switchDoor then
      score - 1500
    else score
  score

/-- One iteration of the `AutoNav_FindTarget` scan: the accumulator is
`(bestScore, nearestDist, nearestSB)`. -/
def findTargetStep (playerType : PlayerType) (targetType : NavTargetType)
    (px py pz : Int) (acc : Int × Int × Option Entity) (e : Entity) :
    Int × Int × Option Entity :=
  if IsNavTarget e.bhvr targetType then
    let dist := Accessibility_GetDistance px py pz e.x e.y e.z
    let score := AutoNav_TargetScore playerType dist e.bhvr
    if score < acc.1 then (score, dist, some e) else acc
  else acc

/-- The `AutoNav_FindTarget` scan over the active-strategy-block list,
starting from the sentinel accumulator `(999999999, 999999999, NULL)`. -/
def AutoNav_FindTargetLoop (playerType : PlayerType) (targetType : NavTargetType)
    (px py pz : Int) (entities : List Entity) : Int × Int × Option Entity :=
  entities.foldl (findTargetStep playerType targetType px py pz)
    (999999999, 999999999, none)

/-- Embedding of `AutoNav_FindTarget()`.  `playerPresent` stands for
`Player && Player->ObStrategyBlock && ...->DynPtr`; when it fails the C
code only nulls `target_name` and returns.  Entities whose own dynamics
pointer is NULL are skipped by the loop and are simply not part of
`entities` here. -/
def AutoNav_FindTarget (playerPresent : Bool) (playerType : PlayerType)
    (px py pz : Int) (entities : List Entity) (s : AutoNavSt) : AutoNavSt :=
  if !playerPresent then { s with target_name := none }
  else
    match AutoNav_FindTargetLoop playerType s.target_type px py pz entities with
    | (_, dist, some e) =>
        { s with
          target_x := e.x
          target_y := e.y
          target_z := e.z
          target_distance := dist
          target_name := some (GetNavTargetName e.bhvr) }
    | (_, _, none) => { s with target_name := none, target_distance := 0 }

/-- Spec-side priority bonus, following the claim's words: larger for
hostile entities (5000) and mission-relevant interactives (2000) than
for plain doors (1500), zero for every other type. -/
def specPriorityBonus (playerType : PlayerType) (bhvr : BehaviourType) : Int :=
  if IsEntityThreat bhvr playerType then 5000
  else if bhvr = .binarySwitch ∨ bhvr = .linkSwitch ∨ bhvr = .database ∨
      bhvr = .generator then 2000
  else if bhvr = .proximityDoor ∨ bhvr = .liftDoor ∨ bhvr = .switchDoor then 1500
  else 0

/-- Spec-side selection score: Euclidean distance minus the priority
bonus. -/
def specTargetScore (playerType : PlayerType) (px py pz : Int) (e : Entity) : Int :=
  Accessibility_GetDistance px py pz e.x e.y e.z -
    specPriorityBonus playerType e.bhvr

/-- Spec-side selection step: keep the incumbent unless the new
candidate scores strictly lower (so the first enumerated minimum
wins). -/
def specSelectStep (playerType : PlayerType) (px py pz : Int)
    (best : Option Entity) (e : Entity) : Option Entity :=
  match best with
  | none => some e
  | some b =>
      if specTargetScore playerType px py pz e <
          specTargetScore playerType px py pz b then some e
      else some b

/-- Spec-side selector, following the claim's words: filter to the
requested category, then pick the first minimum of the selection
score. -/
def specSelectTarget (playerType : PlayerType) (targetType : NavTargetType)
    (px py pz : Int) (entities : List Entity) : Option Entity :=
  (entities.filter (fun e => IsNavTarget e.bhvr targetType)).foldl
    (specSelectStep playerType px py pz) none

/-- The induction invariant tying the C scan accumulator to the
spec-side fold state. -/
def FindTargetInv (playerType : PlayerType) (targetType : NavTargetType)
    (px py pz : Int) (acc : Int × Int × Option Entity)
    (best : Option Entity) : Prop :=
  (acc.2.2 = none ∧ best = none ∧ acc.1 = 999999999) ∨
  (∃ b, acc.2.2 = some b ∧ best = some b ∧
    IsNavTarget b.bhvr targetType = true ∧
    acc.1 = specTargetScore playerType px py pz b ∧
    acc.2.1 = Accessibility_GetDistance px py pz b.x b.y b.z ∧
    acc.1 < 999999999)

/- ============================================================
   Remaining `AutoNav` triggers
   ============================================================ -/

/-- Embedding of `AutoNav_Toggle()` (speech dropped): flips `enabled`
and, when now enabled, immediately scans for a target. -/
def AutoNav_Toggle (playerPresent : Bool) (playerType : PlayerType)
    (px py pz : Int) (entities : List Entity) (s : AutoNavSt) : AutoNavSt :=
  let s := { s with enabled := !s.enabled }
  if s.enabled then AutoNav_FindTarget playerPresent playerType px py pz entities s
  else s

/-- The target-type cycle of `AutoNav_CycleTargetType`. -/
def cycleTargetType : NavTargetType → NavTargetType
  | .interactive => .npc
  | .npc => .exitDoor
  | .exitDoor => .item
  | .item => .interactive

/-- Embedding of `AutoNav_CycleTargetType()` (speech dropped). -/
def AutoNav_CycleTargetType (playerPresent : Bool) (playerType : PlayerType)
    (px py pz : Int) (entities : List Entity) (s : AutoNavSt) : AutoNavSt :=
  let s := { s with target_type := cycleTargetType s.target_type }
  AutoNav_FindTarget playerPresent playerType px py pz entities s

/- ============================================================
   Directional tone encoders (float arithmetic as exact rationals)
   ============================================================ -/

/-- Embedding of the pitch computation in `NavTone_PlayDirectional`:
base 1.0, plus 0.3 when nearly on target (`|a| < 0.1`), plus 0.15 when
`|a| < 0.3`, plus `0.5 * verticalRatio`, clamped to `[0.5, 2.0]`. -/
def NavTone_Pitch (angleOffset verticalRatio : ℚ) : ℚ :=
  let pitch : ℚ := 1
  let absAngle := if angleOffset < 0 then -angleOffset else angleOffset
  let pitch :=
    if absAngle < 1 / 10 then pitch + 3 / 10
    else if absAngle < 3 / 10 then pitch + 15 / 100
    else pitch
  let pitch := pitch + verticalRatio * (1 / 2)
  let pitch := if pitch < 1 / 2 then 1 / 2 else pitch
  if 2 < pitch then 2 else pitch

/-- The stereo position set by `NavTone_PlayDirectional`:
`posX = angleOffset * 2.0`. -/
def NavTone_StereoX (angleOffset : ℚ) : ℚ := angleOffset * 2

/-- Embedding of `GetEnemyPitchMultiplier`. -/
def GetEnemyPitchMultiplier (bhvr : BehaviourType) : ℚ :=
  match bhvr with
  | .alien => 3 / 4
  | .queenAlien => 3 / 5
  | .faceHugger => 9 / 5
  | .predator => 6 / 5
  | .xenoborg => 9 / 10
  | .marine | .seal => 3 / 2
  | _ => 1

/-- Embedding of the pitch computation in `RadarTone_PlayDirectional`:
the enemy base pitch plus `0.3 * verticalRatio`, clamped to
`[0.4, 2.5]`; there is no horizontal-alignment bonus on this channel. -/
def RadarTone_Pitch (enemyPitch verticalRatio : ℚ) : ℚ :=
  let pitch := enemyPitch + verticalRatio * (3 / 10)
  let pitch := if pitch < 2 / 5 then 2 / 5 else pitch
  if 5 / 2 < pitch then 5 / 2 else pitch

/-- Spec-side alignment bonus of the navigation tone, as a function of
`|a|`: 0.3 below 0.1, 0.15 below 0.3, zero beyond. -/
def navAlignmentBonus (absAngle : ℚ) : ℚ :=
  if absAngle < 1 / 10 then 3 / 10
  else if absAngle < 3 / 10 then 15 / 100
  else 0

/- ============================================================
   Stuck detection inside `AutoNav_Update`
   ============================================================ -/

/-- The cross-tick state of the stuck-detection block of
`AutoNav_Update` (`static int stuckCounter`), instrumented with a
counter of `PathFind_EscalateStrategy` calls issued by the block. -/
structure StuckState where
  stuckCounter : Int
  escalations : Nat
deriving DecidableEq, Repr

/-- Embedding of the stuck/oscillation/loop block of `AutoNav_Update`
(lines 3347-3399): while `auto_move` is set and the target not reached,
a tick whose squared horizontal displacement is below 10000 increments
the counter and any other tick zeroes it; a counter above 90 escalates
and resets the counter; otherwise an oscillation or a loop report
escalates without touching the counter; outside auto-move the counter
is zeroed.  `oscillating` and `looping` stand for the values of
`PathFind_DetectOscillation()` and `PathFind_DetectLoop(&n) && n > 0`
on that tick. -/
def stuckDetectTick (autoMove targetReached : Bool) (distMoved : Int)
    (oscillating looping : Bool) (st : StuckState) : StuckState :=
  if autoMove && !targetReached then
    let c := if distMoved < 10000 then st.stuckCounter + 1 else 0
    if 90 < c then { stuckCounter := 0, escalations := st.escalations + 1 }
    else if oscillating then { stuckCounter := c, escalations := st.escalations + 1 }
    else if looping then { stuckCounter := c, escalations := st.escalations + 1 }
    else { stuckCounter := c, escalations := st.escalations }
  else { st with stuckCounter := 0 }

/-- A synthetic run of ticks with `auto_move` on, target not reached,
no oscillation and no loop report, with the given per-tick squared
displacements. -/
def runStuckTicks (ds : List Int) (st : StuckState) : StuckState :=
  ds.foldl (fun st d => stuckDetectTick true false d false false st) st

/- ============================================================
   The per-tick orchestrator `AutoNav_Update`
   ============================================================ -/

/-- Truncation of a rational toward zero: the semantics of the C cast
`(int)` applied to a float expression. -/
def qtrunc (q : ℚ) : Int := if q < 0 then Int.ceil q else Int.floor q

/-- The progress announcement thresholds. -/
def PROGRESS_ANNOUNCE_DISTANCE : Int := 5000

/-- `PROGRESS_ANNOUNCE_TIME_MS`. -/
def PROGRESS_ANNOUNCE_TIME_MS : Nat := 10000

/-- `PROGRESS_MOVING_AWAY_THRESHOLD`. -/
def PROGRESS_MOVING_AWAY_THRESHOLD : Int := 3000

/-- Embedding of `AutoNav_CheckProgress()` (speech dropped, state
effects kept); `now` is `GetTickCount()`. -/
def AutoNav_CheckProgress (now : Nat) (s : AutoNavSt) : AutoNavSt :=
  if !s.enabled || !s.auto_move then s
  else
    let currentDist := s.target_distance
    let lastDist := s.last_announced_distance
    let s :=
      if currentDist < s.closest_achieved then
        { s with closest_achieved := currentDist }
      else s
    let distanceChange := lastDist - currentDist
    let timeSince := usub32 now s.last_progress_time
    if PROGRESS_ANNOUNCE_DISTANCE ≤ distanceChange then
      { s with last_announced_distance := currentDist, last_progress_time := now }
    else if distanceChange ≤ -PROGRESS_MOVING_AWAY_THRESHOLD ∧ 5000 < timeSince then
      { s with last_announced_distance := currentDist, last_progress_time := now }
    else if PROGRESS_ANNOUNCE_TIME_MS < timeSince ∧ distanceChange.natAbs < 2000 then
      { s with last_progress_time := now }
    else s

/-- The `static` locals of `AutoNav_Update` plus the file-scope frame
counters it uses, gathered into one record. -/
structure NavStatics where
  navToneFrameCounter : Int
  positionRecordCounter : Int
  progressCheckCounter : Int
  toneCounter : Int
  avoidanceState : Int
  avoidanceTimer : Int
  stuckCounter : Int
  lastPlayerX : Int
  lastPlayerZ : Int
  doorAnnouncedThisStop : Bool
  smoothedTurnAmount : Int
  backtrackFrames : Int
deriving DecidableEq, Repr

/-- The movement sinks written by `AutoNav_Update`: the player-status
movement increments, the yaw angular velocity and the jump request.
They persist across ticks unless some code writes them. -/
structure PlayerMove where
  mvtMotionIncrement : Int
  mvtSideStepIncrement : Int
  angVelocityEulerY : Int
  rqstJump : Bool
deriving DecidableEq, Repr

/-- The per-tick inputs that `AutoNav_Update` reads from the host:
availability, the player blocks, the clock, the entity list, the
float geometry the C code derives through `sqrtf` (passed in as the
exact values the host computed: `targetDistRaw` is
`sqrtf(dx*dx+dz*dz)`, `verticalRatioRaw` is `dy/dist3D` or 0 when
`dist3D ≤ 1`, `cross`/`dot` are the horizontal cross and dot products),
the forward obstruction ray result, the side clearances, the
oscillation/loop detector outputs for this tick, and the obstruction
subsystem's forward state.  Float comparison constants are modelled at
their decimal values. -/
structure NavEnv where
  available : Bool
  playerPresent : Bool
  psPresent : Bool
  playerType : PlayerType
  playerX : Int
  playerY : Int
  playerZ : Int
  entities : List Entity
  now : Nat
  targetDistRaw : ℚ
  verticalRatioRaw : ℚ
  cross : ℚ
  dot : ℚ
  obstacleDistance : Int
  obstacleType : String
  leftClear : Int
  rightClear : Int
  oscillating : Bool
  looping : Bool
  loopSize : Int
  obstrForwardBlocked : Bool
  obstrForwardDistance : Int
  obstrForwardClearable : Bool
  obstrForwardJumpable : Bool

/-- The cadence phase of `AutoNav_Update` (lines 3223-3256): the
30-frame target refresh, the 10-frame position record, the
`strategy_frames` increment and the 60-frame progress check. -/
def AutoNav_UpdateCadence (env : NavEnv) (s : AutoNavSt) (st : NavStatics) :
    AutoNavSt × NavStatics :=
  let ntc := st.navToneFrameCounter + 1
  let doRefresh := 30 ≤ ntc
  let s1 :=
    if doRefresh then
      AutoNav_FindTarget env.playerPresent env.playerType env.playerX env.playerY
        env.playerZ env.entities s
    else s
  let prc := st.positionRecordCounter + 1
  let doRecord := 10 ≤ prc
  let s2 :=
    if doRecord then
      PathFind_RecordPosition env.playerX env.playerY env.playerZ env.now s1
    else s1
  let s3 := { s2 with strategy_frames := s2.strategy_frames + 1 }
  let pcc := st.progressCheckCounter + 1
  let doProgress := 60 ≤ pcc
  let s4 := if doProgress then AutoNav_CheckProgress env.now s3 else s3
  (s4,
    { st with
      navToneFrameCounter := if doRefresh then 0 else ntc
      positionRecordCounter := if doRecord then 0 else prc
      progressCheckCounter := if doProgress then 0 else pcc })

/-- The geometry derived each tick from the env inputs (lines
3258-3296): the 1-floored horizontal target distance, the clamped
vertical ratio, and the stereo angle offset (hard left/right when the
target is behind). -/
def AutoNav_UpdateAngles (env : NavEnv) : ℚ × ℚ × ℚ :=
  let targetDist : ℚ := if env.targetDistRaw < 1 then 1 else env.targetDistRaw
  let verticalRatio : ℚ :=
    let vr := if 1 < env.verticalRatioRaw then (1 : ℚ) else env.verticalRatioRaw
    if vr < -1 then -1 else vr
  let angleOffset : ℚ :=
    let a := if 1 < env.cross then (1 : ℚ) else env.cross
    let a := if a < -1 then -1 else a
    if env.dot < 0 then (if 0 ≤ env.cross then (1 : ℚ) else -1) else a
  (targetDist, verticalRatio, angleOffset)

/-- The 20-frame navigation-tone gate (lines 3298-3304): the second
component is the play request (stereo position and pitch); the channel
additionally drops it while the voice is busy. -/
def AutoNav_UpdateTone (st : NavStatics) (angleOffset verticalRatio : ℚ) :
    NavStatics × Option (ℚ × ℚ) :=
  let tc := st.toneCounter + 1
  let fired := 20 ≤ tc
  ({ st with toneCounter := if fired then 0 else tc },
    if fired then
      some (NavTone_StereoX angleOffset, NavTone_Pitch angleOffset verticalRatio)
    else none)

/-- The stuck/oscillation/loop block of `AutoNav_Update` (lines
3342-3401), including the strategy-specific forcing of the avoidance
state after a stuck escalation and the `lastPlayerX/Z` refresh. -/
def AutoNav_UpdateStuck (env : NavEnv) (s : AutoNavSt) (st : NavStatics) :
    AutoNavSt × NavStatics :=
  let movedX := env.playerX - st.lastPlayerX
  let movedZ := env.playerZ - st.lastPlayerZ
  let distMoved := movedX * movedX + movedZ * movedZ
  let (s, st) :=
    if s.auto_move && !s.target_reached then
      let stuckCounter := if distMoved < 10000 then st.stuckCounter + 1 else 0
      if 90 < stuckCounter then
        let s := PathFind_EscalateStrategy s
        let st :=
          match s.current_strategy with
          | .wallFollowLeft =>
              { st with stuckCounter := 0, avoidanceState := 1, avoidanceTimer := 180 }
          | .wallFollowRight =>
              { st with stuckCounter := 0, avoidanceState := 2, avoidanceTimer := 180 }
          | .backtrack => { st with stuckCounter := 0, avoidanceState := 0 }
          | .wideAroundLeft =>
              { st with stuckCounter := 0, avoidanceState := 1, avoidanceTimer := 300 }
          | .wideAroundRight =>
              { st with stuckCounter := 0, avoidanceState := 2, avoidanceTimer := 300 }
          | .direct => { st with stuckCounter := 0 }
        (s, st)
      else if env.oscillating then
        (PathFind_EscalateStrategy s, { st with stuckCounter := stuckCounter })
      else if env.looping ∧ 0 < env.loopSize then
        (PathFind_EscalateStrategy s, { st with stuckCounter := stuckCounter })
      else (s, { st with stuckCounter := stuckCounter })
    else (s, { st with stuckCounter := 0 })
  (s, { st with lastPlayerX := env.playerX, lastPlayerZ := env.playerZ })

/-- The movement-decision phase of `AutoNav_Update` (lines 3403-3505):
the door stop, the obstacle-avoidance side selection and execution, the
avoidance-timer countdown and the clear-path auto-rotation; returns the
statics plus `(adjustedTurnAmount, shouldMoveForward, shouldStrafeLeft,
shouldStrafeRight)`. -/
def AutoNav_UpdateMoveDecision (env : NavEnv) (s : AutoNavSt) (st : NavStatics)
    (targetDist : ℚ) : NavStatics × Int × Bool × Bool × Bool :=
  let dist := env.obstacleDistance
  let isDoor := env.obstacleType = "door" ∨ env.obstacleType = "proximity door" ∨
    env.obstacleType = "lift door"
  let (a1, t1, d1, turn1, fwd1, sl1, sr1) :=
    if isDoor ∧ 0 < dist ∧ dist < 3000 then
      ((3 : Int), st.avoidanceTimer, true, (0 : Int), false, false, false)
    else if 0 < dist ∧ dist < 4000 then
      let (a, t) :=
        if st.avoidanceState = 0 ∨ st.avoidanceState = 3 then
          let newState : Int :=
            if (1 / 10 : ℚ) < env.cross then
              (if 2000 < env.rightClear then 2 else 1)
            else if env.cross < -(1 / 10) then
              (if 2000 < env.leftClear then 1 else 2)
            else (if env.rightClear < env.leftClear then 1 else 2)
          (newState, (30 : Int))
        else (st.avoidanceState, st.avoidanceTimer)
      if a = 1 then (a, t, false, (-30 : Int), true, true, false)
      else if a = 2 then (a, t, false, (30 : Int), true, false, true)
      else (a, t, false, (0 : Int), false, false, false)
    else (st.avoidanceState, st.avoidanceTimer, st.doorAnnouncedThisStop,
      (0 : Int), false, false, false)
  let (a2, t2, d2, turn2, fwd2) :=
    if 0 < t1 then
      let t := t1 - 1
      ((if t ≤ 0 then (0 : Int) else a1), t, d1, turn1, fwd1)
    else if dist = 0 ∨ 4000 ≤ dist then
      let turn :=
        if s.auto_rotate = true ∧ 2000 < targetDist then
          let t := qtrunc (env.cross * 100)
          let t := if 50 < t then (50 : Int) else t
          if t < -50 then -50 else t
        else turn1
      let (turn, fwd) :=
        if (1 / 2 : ℚ) < env.dot then (turn, true)
        else if env.dot < -(3 / 10) then
          ((if 0 ≤ env.cross then (70 : Int) else -70), fwd1)
        else (turn, fwd1)
      ((0 : Int), t1, false, turn, fwd)
    else (a1, t1, d1, turn1, fwd1)
  ({ st with avoidanceState := a2, avoidanceTimer := t2, doorAnnouncedThisStop := d2 },
    turn2, fwd2, sl1, sr1)

/-- The rotation-smoothing phase (lines 3507-3514): while auto-rotate
is on, the smoothed turn amount moves 15% (truncated) of the way toward
the requested turn and is written to the yaw angular velocity. -/
def AutoNav_UpdateSmoothing (s : AutoNavSt) (st : NavStatics) (ps : PlayerMove)
    (adjustedTurnAmount : Int) : NavStatics × PlayerMove :=
  if s.auto_rotate then
    let diff := adjustedTurnAmount - st.smoothedTurnAmount
    let smoothed := st.smoothedTurnAmount + qtrunc ((diff : ℚ) * (15 / 100))
    ({ st with smoothedTurnAmount := smoothed },
      { ps with angVelocityEulerY := smoothed })
  else (st, ps)

/-- The movement-application phase (lines 3516-3572): the BACKTRACK
reverse drive with its 90-frame reset to DIRECT, the normal drive with
strafe and auto-jump while farther than 3000, and the full stop when
nearer. -/
def AutoNav_UpdateMovement (env : NavEnv) (s : AutoNavSt) (st : NavStatics)
    (ps : PlayerMove) (targetDist : ℚ)
    (shouldMoveForward shouldStrafeLeft shouldStrafeRight : Bool) :
    AutoNavSt × NavStatics × PlayerMove :=
  if s.current_strategy = NavStrategy.backtrack then
    let bf := st.backtrackFrames + 1
    let ps :=
      if env.psPresent then
        { ps with mvtMotionIncrement := -8000, mvtSideStepIncrement := 0 }
      else ps
    if 90 < bf then
      ({ s with current_strategy := NavStrategy.direct, strategy_frames := 0 },
        { st with backtrackFrames := 0 }, ps)
    else (s, { st with backtrackFrames := bf }, ps)
  else if s.auto_move = true ∧ 3000 < targetDist then
    let ps :=
      if env.psPresent then
        let ps :=
          { ps with
            mvtMotionIncrement := if shouldMoveForward then 13000 else 0
            mvtSideStepIncrement :=
              if shouldStrafeLeft then -8000
              else if shouldStrafeRight then 8000
              else 0 }
        if env.obstrForwardBlocked = true ∧ env.obstrForwardDistance < 2500 ∧
            env.obstrForwardClearable = true ∧ env.obstrForwardJumpable = false then
          { ps with rqstJump := true }
        else ps
      else ps
    (s, { st with backtrackFrames := 0 }, ps)
  else if s.auto_move then
    (s, st,
      if env.psPresent then
        { ps with mvtMotionIncrement := 0, mvtSideStepIncrement := 0 }
      else ps)
  else (s, st, ps)

/-- Embedding of `AutoNav_Update()` as the composition of its phases in
source order.  Returns the updated engine state, the updated statics,
the movement sinks after the tick, and the navigation-tone request
issued this tick (`none` when the 20-frame gate does not fire).  TTS
emissions are dropped; the dead local `avoidThreshold` (computed from
`isEnemy` but never read) is omitted. -/
def AutoNav_Update (env : NavEnv) (s : AutoNavSt) (st : NavStatics)
    (ps : PlayerMove) : AutoNavSt × NavStatics × PlayerMove × Option (ℚ × ℚ) :=
  if !s.enabled || !env.available then (s, st, ps, none)
  else if !env.playerPresent then (s, st, ps, none)
  else
    let (s, st) := AutoNav_UpdateCadence env s st
    if s.target_name = none then (s, st, ps, none)
    else
      let (targetDist, verticalRatio, angleOffset) := AutoNav_UpdateAngles env
      let (st, tone) := AutoNav_UpdateTone st angleOffset verticalRatio
      let (s, st) := AutoNav_UpdateStuck env s st
      let (st, adjustedTurnAmount, shouldMoveForward, shouldStrafeLeft,
        shouldStrafeRight) := AutoNav_UpdateMoveDecision env s st targetDist
      let (st, ps) := AutoNav_UpdateSmoothing s st ps adjustedTurnAmount
      let (s, st, ps) := AutoNav_UpdateMovement env s st ps targetDist
        shouldMoveForward shouldStrafeLeft shouldStrafeRight
      let s := (AutoNav_CheckArrival s).1
      (s, st, ps, tone)

end AvpAccess

namespace AvpAccess

/- ============================================================
   Theorems
   ============================================================ -/

/-- Claim C1 (counterexample): the claim states that for `Δ = playerY - hitY`
outside `(-1200, 1200)` both flags are false; at `playerY = 1200`, `hitY = 0`
(so `Δ = 1200`) the code still reports `clearable = true`, because
`AnalyzeObstruction` only checks the lower bound `Δ > -1200`. -/
theorem C1_counterexample :
    ¬ (∀ playerY hitY : Int,
        ((AnalyzeObstruction playerY hitY).isClearable = true ∧
            (AnalyzeObstruction playerY hitY).isJumpable = false ↔
          (-1200 < playerY - hitY ∧ playerY - hitY < 1200) ∧
            ¬(-450 < playerY - hitY ∧ playerY - hitY < 450))) := by
  intro h
  have h1200 := h 1200 0
  simp [AnalyzeObstruction, MAXIMUM_STEP_HEIGHT, JUMP_CLEARANCE_HEIGHT] at h1200

/-- Claim C1 (amended): `jumpable = true` exactly when
`Δ = playerY - hitY` lies strictly within `(-450, 450)`;
`clearable = true` exactly when `Δ > -1200` (one-sided: there is no
upper bound, so every `Δ ≥ 1200` is still reported clearable);
consequently `clearable ∧ ¬jumpable` holds exactly on
`(-1200, -450] ∪ [450, ∞)` and both flags are false exactly when
`Δ ≤ -1200`. -/
theorem C1_amended (playerY hitY : Int) :
    ((AnalyzeObstruction playerY hitY).isJumpable = true ↔
      -450 < playerY - hitY ∧ playerY - hitY < 450) ∧
    ((AnalyzeObstruction playerY hitY).isClearable = true ↔
      -1200 < playerY - hitY) ∧
    ((AnalyzeObstruction playerY hitY).isClearable = true ∧
        (AnalyzeObstruction playerY hitY).isJumpable = false ↔
      (-1200 < playerY - hitY ∧ playerY - hitY ≤ -450) ∨ 450 ≤ playerY - hitY) ∧
    ((AnalyzeObstruction playerY hitY).isJumpable = false ∧
        (AnalyzeObstruction playerY hitY).isClearable = false ↔
      playerY - hitY ≤ -1200) := by
  simp only [AnalyzeObstruction, MAXIMUM_STEP_HEIGHT, JUMP_CLEARANCE_HEIGHT,
    decide_eq_true_eq, decide_eq_false_iff_not]
  refine ⟨by tauto, by tauto, ?_, ?_⟩ <;> omega

/-- Claim C2: `PathFind_EscalateStrategy` steps the strategy through the
fixed cycle DIRECT → WALL_FOLLOW_LEFT → WALL_FOLLOW_RIGHT → BACKTRACK →
WIDE_AROUND_LEFT → WIDE_AROUND_RIGHT → DIRECT; `strategy_failures`
increments exactly on the WIDE_AROUND_RIGHT → DIRECT transition; and
when the incremented counter reaches 2 the function clears `auto_move`
and the strategy is DIRECT. -/
theorem C2_escalation_cycle (s : AutoNavSt) :
    (PathFind_EscalateStrategy s).current_strategy =
      strategySuccessor s.current_strategy ∧
    (PathFind_EscalateStrategy s).strategy_failures =
      s.strategy_failures +
        (if s.current_strategy = NavStrategy.wideAroundRight then 1 else 0) ∧
    (PathFind_EscalateStrategy s).auto_move =
      (if s.current_strategy = NavStrategy.wideAroundRight ∧
          1 ≤ s.strategy_failures then false else s.auto_move) ∧
    (s.current_strategy = NavStrategy.wideAroundRight →
      2 ≤ s.strategy_failures + 1 →
      (PathFind_EscalateStrategy s).auto_move = false ∧
        (PathFind_EscalateStrategy s).current_strategy = NavStrategy.direct) := by
  cases h : s.current_strategy <;>
    simp only [PathFind_EscalateStrategy, strategySuccessor, h] <;>
    split_ifs <;> simp_all <;> omega

/-- Claim C2 witness: from failure count 1 in WIDE_AROUND_RIGHT, the
escalation completes the cycle, increments the counter to 2, clears
`auto_move` and resets to DIRECT. -/
theorem C2_escalation_cycle_witness :
    (PathFind_EscalateStrategy
        { AutoNav_Init with
          current_strategy := NavStrategy.wideAroundRight
          auto_move := true
          strategy_failures := 1 }).auto_move = false ∧
    (PathFind_EscalateStrategy
        { AutoNav_Init with
          current_strategy := NavStrategy.wideAroundRight
          auto_move := true
          strategy_failures := 1 }).current_strategy = NavStrategy.direct :=
  (C2_escalation_cycle
      { AutoNav_Init with
        current_strategy := NavStrategy.wideAroundRight
        auto_move := true
        strategy_failures := 1 }).2.2.2 rfl (by norm_num)

/-- Claim C3: `Announcement_IsAllowed` returns false exactly when a
strictly-higher tier's last-fired stamp lies within its cooldown window
measured back from the current time (600 ms after CRITICAL, 400 ms
after HIGH, 200 ms after NORMAL); CRITICAL is always allowed;
`Announcement_RecordTime` stamps the current time into the slot of its
tier only and LOW records nothing; and after a CRITICAL fires at
t = 1000 ms, HIGH is blocked throughout (1000, 1600) ms and allowed
again at 1700 ms. -/
theorem C3_arbiter (c : AnnounceClock) (t : Nat) :
    Announcement_IsAllowed c t AnnouncePriority.critical = true ∧
    (Announcement_IsAllowed c t AnnouncePriority.high = false ↔
      usub32 t c.lastCritical < COOLDOWN_AFTER_CRITICAL_MS) ∧
    (Announcement_IsAllowed c t AnnouncePriority.normal = false ↔
      usub32 t c.lastCritical < COOLDOWN_AFTER_CRITICAL_MS ∨
        usub32 t c.lastHigh < COOLDOWN_AFTER_HIGH_MS) ∧
    (Announcement_IsAllowed c t AnnouncePriority.low = false ↔
      usub32 t c.lastCritical < COOLDOWN_AFTER_CRITICAL_MS ∨
        usub32 t c.lastHigh < COOLDOWN_AFTER_HIGH_MS ∨
        usub32 t c.lastNormal < COOLDOWN_BETWEEN_SAME_MS) ∧
    Announcement_RecordTime c t AnnouncePriority.critical =
      { c with lastCritical := t } ∧
    Announcement_RecordTime c t AnnouncePriority.high = { c with lastHigh := t } ∧
    Announcement_RecordTime c t AnnouncePriority.normal =
      { c with lastNormal := t } ∧
    Announcement_RecordTime c t AnnouncePriority.low = c ∧
    (∀ u : Nat, 1000 < u → u < 1600 →
      Announcement_IsAllowed (Announcement_RecordTime c 1000 AnnouncePriority.critical)
        u AnnouncePriority.high = false) ∧
    Announcement_IsAllowed (Announcement_RecordTime c 1000 AnnouncePriority.critical)
      1700 AnnouncePriority.high = true := by
  refine ⟨rfl, ?_, ?_, ?_, rfl, rfl, rfl, rfl, ?_, ?_⟩
  · simp only [Announcement_IsAllowed]
    split_ifs with h <;> simp [h]
  · simp only [Announcement_IsAllowed]
    split_ifs <;> simp_all
  · simp only [Announcement_IsAllowed]
    split_ifs <;> simp_all
  · intro u h1 h2
    simp only [Announcement_IsAllowed, Announcement_RecordTime, usub32,
      COOLDOWN_AFTER_CRITICAL_MS]
    split_ifs with h
    · rfl
    · exfalso
      apply h
      omega
  · simp only [Announcement_IsAllowed, Announcement_RecordTime, usub32,
      COOLDOWN_AFTER_CRITICAL_MS]
    split_ifs with h
    · exfalso
      omega
    · rfl

/-- Running a batch of position records from a state whose count and
index agree with having already absorbed `k` samples from the initial
state: the count stays `min · 30` and the index stays `· % 30`. -/
theorem recordPositions_count_index (samples : List (Int × Int × Int × Nat))
    (s : AutoNavSt) (k : Nat)
    (hc : s.history_count = min k NAV_POSITION_HISTORY_SIZE)
    (hi : s.history_index = k % NAV_POSITION_HISTORY_SIZE) :
    (recordPositions samples s).history_count =
      min (k + samples.length) NAV_POSITION_HISTORY_SIZE ∧
    (recordPositions samples s).history_index =
      (k + samples.length) % NAV_POSITION_HISTORY_SIZE := by
  induction samples generalizing s k with
  | nil =>
    simpa [recordPositions] using ⟨hc, hi⟩
  | cons p ps ih =>
    have step : recordPositions (p :: ps) s =
        recordPositions ps (PathFind_RecordPosition p.1 p.2.1 p.2.2.1 p.2.2.2 s) :=
      rfl
    rw [step]
    have ec : (PathFind_RecordPosition p.1 p.2.1 p.2.2.1 p.2.2.2 s).history_count =
        if s.history_count < NAV_POSITION_HISTORY_SIZE then s.history_count + 1
        else s.history_count := rfl
    have ei : (PathFind_RecordPosition p.1 p.2.1 p.2.2.1 p.2.2.2 s).history_index =
        (s.history_index + 1) % NAV_POSITION_HISTORY_SIZE := rfl
    have h1 : (PathFind_RecordPosition p.1 p.2.1 p.2.2.1 p.2.2.2 s).history_count =
        min (k + 1) NAV_POSITION_HISTORY_SIZE := by
      rw [ec, hc]
      simp only [NAV_POSITION_HISTORY_SIZE]
      split_ifs <;> omega
    have h2 : (PathFind_RecordPosition p.1 p.2.1 p.2.2.1 p.2.2.2 s).history_index =
        (k + 1) % NAV_POSITION_HISTORY_SIZE := by
      rw [ei, hi]
      simp only [NAV_POSITION_HISTORY_SIZE]
      omega
    obtain ⟨hA, hB⟩ := ih _ (k + 1) h1 h2
    refine ⟨?_, ?_⟩
    · rw [hA, List.length_cons]
      congr 1
      omega
    · rw [hB, List.length_cons]
      congr 1
      omega

/-- Claim C9: `history_count` never exceeds the capacity 30 and
saturates there; each insertion writes exactly the slot at
`history_index`, leaves every other slot unchanged, and advances
`history_index` modulo 30; and from the initial state, any sequence of
insertions keeps the count at `min n 30` and the index at `n % 30`, so
after more than 30 insertions each new sample lands on the wrapped
index and overwrites the oldest record. -/
theorem C9_history_ring_buffer :
    (∀ (s : AutoNavSt) (x y z : Int) (now : Nat),
      s.history_count ≤ NAV_POSITION_HISTORY_SIZE →
      (PathFind_RecordPosition x y z now s).history_count ≤
          NAV_POSITION_HISTORY_SIZE ∧
        ((PathFind_RecordPosition x y z now s).history_count =
          if s.history_count < NAV_POSITION_HISTORY_SIZE then s.history_count + 1
          else s.history_count) ∧
        (s.history_count = NAV_POSITION_HISTORY_SIZE →
          (PathFind_RecordPosition x y z now s).history_count =
            NAV_POSITION_HISTORY_SIZE) ∧
        (PathFind_RecordPosition x y z now s).position_history s.history_index =
          { x := x, y := y, z := z, timestamp := now } ∧
        (∀ j, j ≠ s.history_index →
          (PathFind_RecordPosition x y z now s).position_history j =
            s.position_history j) ∧
        (PathFind_RecordPosition x y z now s).history_index =
          (s.history_index + 1) % NAV_POSITION_HISTORY_SIZE) ∧
    (∀ samples : List (Int × Int × Int × Nat),
      (recordPositions samples AutoNav_Init).history_count =
          min samples.length NAV_POSITION_HISTORY_SIZE ∧
        (recordPositions samples AutoNav_Init).history_index =
          samples.length % NAV_POSITION_HISTORY_SIZE) := by
  constructor
  · intro s x y z now hle
    have ec : (PathFind_RecordPosition x y z now s).history_count =
        if s.history_count < NAV_POSITION_HISTORY_SIZE then s.history_count + 1
        else s.history_count := rfl
    refine ⟨?_, ec, ?_, ?_, ?_, ?_⟩
    · rw [ec]
      simp only [NAV_POSITION_HISTORY_SIZE] at *
      split_ifs <;> omega
    · intro h30
      rw [ec, h30]
      simp only [NAV_POSITION_HISTORY_SIZE]
      split_ifs <;> omega
    · simp [PathFind_RecordPosition]
    · intro j hj
      simp [PathFind_RecordPosition, Function.update_noteq hj]
    · simp [PathFind_RecordPosition]
  · intro samples
    have h := recordPositions_count_index samples AutoNav_Init 0
      (by simp [AutoNav_Init]) (by simp [AutoNav_Init])
    simpa using h

/-- Claim C9 witness: one insertion into the fresh state lands in slot
0 and advances the index to 1. -/
theorem C9_history_ring_buffer_witness :
    AutoNav_Init.history_count ≤ NAV_POSITION_HISTORY_SIZE ∧
    (PathFind_RecordPosition 1 2 3 7 AutoNav_Init).position_history 0 =
      { x := 1, y := 2, z := 3, timestamp := 7 } ∧
    (PathFind_RecordPosition 1 2 3 7 AutoNav_Init).history_index = 1 := by
  have h0 : AutoNav_Init.history_count ≤ NAV_POSITION_HISTORY_SIZE := by
    norm_num [AutoNav_Init, NAV_POSITION_HISTORY_SIZE]
  obtain ⟨-, -, -, h4, -, h6⟩ := C9_history_ring_buffer.1 AutoNav_Init 1 2 3 7 h0
  exact ⟨h0, h4, by simpa [AutoNav_Init, NAV_POSITION_HISTORY_SIZE] using h6⟩

/-- The interactive arrival message never coincides with the item
message: the first character differs. -/
theorem arrivalMessage_interactive_ne_item (name : Option String) :
    arrivalMessage NavTargetType.interactive name ≠
      arrivalMessage NavTargetType.item name := by
  show ("Arrived at " ++ name.getD "target" ++ ". Press SPACE to interact.") ≠
    "Item nearby. Walk forward to collect."
  intro h
  have h' := congrArg String.data h
  rw [String.data_append, String.data_append] at h'
  have e1 : "Arrived at ".data = 'A' :: "rrived at ".data := rfl
  rw [e1, List.cons_append, List.cons_append] at h'
  exact absurd (List.head_eq_of_cons_eq h') (by decide)

/-- The interactive arrival message never coincides with the generic
message: the first character differs. -/
theorem arrivalMessage_interactive_ne_generic (name : Option String) :
    arrivalMessage NavTargetType.interactive name ≠
      arrivalMessage NavTargetType.npc name := by
  show ("Arrived at " ++ name.getD "target" ++ ". Press SPACE to interact.") ≠
    "Target reached."
  intro h
  have h' := congrArg String.data h
  rw [String.data_append, String.data_append] at h'
  have e1 : "Arrived at ".data = 'A' :: "rrived at ".data := rfl
  rw [e1, List.cons_append, List.cons_append] at h'
  exact absurd (List.head_eq_of_cons_eq h') (by decide)

/-- The item arrival message differs from the generic one. -/
theorem arrivalMessage_item_ne_generic (name : Option String) :
    arrivalMessage NavTargetType.item name ≠
      arrivalMessage NavTargetType.npc name := by
  show "Item nearby. Walk forward to collect." ≠ "Target reached."
  decide

/-- Claim C6: while enabled, with the arrival not yet announced and the
distance strictly under 2500, `AutoNav_CheckArrival` speaks exactly one
contextual message (interactive, item and generic targets get pairwise
distinct messages), sets `arrival_announced` and `target_reached`, and
clears `auto_move`; with `arrival_announced` already set, or distance
at or above 2500, it changes nothing and speaks nothing. -/
theorem C6_check_arrival (s : AutoNavSt) :
    (s.enabled = true → s.arrival_announced = false →
      s.target_distance < ARRIVAL_DISTANCE →
      (AutoNav_CheckArrival s).2 =
          some (arrivalMessage s.target_type s.target_name) ∧
        (AutoNav_CheckArrival s).1.arrival_announced = true ∧
        (AutoNav_CheckArrival s).1.target_reached = true ∧
        (AutoNav_CheckArrival s).1.auto_move = false) ∧
    (s.arrival_announced = true → AutoNav_CheckArrival s = (s, none)) ∧
    (ARRIVAL_DISTANCE ≤ s.target_distance → AutoNav_CheckArrival s = (s, none)) ∧
    (∀ name : Option String,
      arrivalMessage NavTargetType.interactive name ≠
          arrivalMessage NavTargetType.item name ∧
        arrivalMessage NavTargetType.interactive name ≠
          arrivalMessage NavTargetType.npc name ∧
        arrivalMessage NavTargetType.item name ≠
          arrivalMessage NavTargetType.npc name) := by
  refine ⟨?_, ?_, ?_, ?_⟩
  · intro h1 h2 h3
    simp [AutoNav_CheckArrival, h1, h2, not_le.mpr h3]
  · intro h
    cases he : s.enabled <;> simp [AutoNav_CheckArrival, he, h]
  · intro h
    cases he : s.enabled <;> cases ha : s.arrival_announced <;>
      simp [AutoNav_CheckArrival, he, ha, h]
  · intro name
    exact ⟨arrivalMessage_interactive_ne_item name,
      arrivalMessage_interactive_ne_generic name,
      arrivalMessage_item_ne_generic name⟩

/-- Claim C6 witness: an enabled state targeting an interactive at
distance 2000 announces the arrival and clears `auto_move`. -/
theorem C6_check_arrival_witness :
    (AutoNav_CheckArrival
        { AutoNav_Init with
          enabled := true
          auto_move := true
          target_type := NavTargetType.interactive
          target_distance := 2000
          target_name := some "switch" }).2 =
      some "Arrived at switch. Press SPACE to interact." ∧
    (AutoNav_CheckArrival
        { AutoNav_Init with
          enabled := true
          auto_move := true
          target_type := NavTargetType.interactive
          target_distance := 2000
          target_name := some "switch" }).1.auto_move = false := by
  obtain ⟨hmsg, -, -, hmv⟩ :=
    (C6_check_arrival
        { AutoNav_Init with
          enabled := true
          auto_move := true
          target_type := NavTargetType.interactive
          target_distance := 2000
          target_name := some "switch" }).1
      rfl rfl (by norm_num [ARRIVAL_DISTANCE])
  exact ⟨by simpa [arrivalMessage] using hmsg, hmv⟩

/-- Claim C3 witness: at t = 1300 ms after a CRITICAL recorded at
1000 ms from the all-zero clock, HIGH is blocked. -/
theorem C3_arbiter_witness :
    1000 < 1300 ∧ 1300 < 1600 ∧
    Announcement_IsAllowed
      (Announcement_RecordTime
        { lastCritical := 0, lastHigh := 0, lastNormal := 0 } 1000
        AnnouncePriority.critical)
      1300 AnnouncePriority.high = false :=
  ⟨by norm_num, by norm_num,
    (C3_arbiter { lastCritical := 0, lastHigh := 0, lastNormal := 0 }
        1300).2.2.2.2.2.2.2.2.1 1300 (by norm_num) (by norm_num)⟩

/-- The scan-loop score equals the Euclidean distance minus the
spec-side priority bonus: the three sequential subtractions hit
pairwise-disjoint type sets. -/
theorem targetScore_eq_sub (pt : PlayerType) (dist : Int) (bhvr : BehaviourType) :
    AutoNav_TargetScore pt dist bhvr = dist - specPriorityBonus pt bhvr := by
  cases bhvr <;> cases pt <;>
    simp [AutoNav_TargetScore, specPriorityBonus, IsEntityThreat]

/-- A non-qualifying entity leaves the scan accumulator unchanged. -/
theorem findTargetStep_of_neg (pt : PlayerType) (tt : NavTargetType)
    (px py pz : Int) (acc : Int × Int × Option Entity) (e : Entity)
    (hq : IsNavTarget e.bhvr tt = false) :
    findTargetStep pt tt px py pz acc e = acc := by
  simp [findTargetStep, hq]

/-- On a qualifying entity the scan step compares the spec-side score
against the incumbent best score. -/
theorem findTargetStep_of_pos (pt : PlayerType) (tt : NavTargetType)
    (px py pz : Int) (acc : Int × Int × Option Entity) (e : Entity)
    (hq : IsNavTarget e.bhvr tt = true) :
    findTargetStep pt tt px py pz acc e =
      if specTargetScore pt px py pz e < acc.1 then
        (specTargetScore pt px py pz e,
          Accessibility_GetDistance px py pz e.x e.y e.z, some e)
      else acc := by
  simp only [findTargetStep, hq, if_true, targetScore_eq_sub, specTargetScore]

/-- The C scan and the spec-side fold stay related by `FindTargetInv`
throughout the list, provided every qualifying score stays under the
`999999999` sentinel. -/
theorem findTargetLoop_invariant (pt : PlayerType) (tt : NavTargetType)
    (px py pz : Int) (es : List Entity) (acc : Int × Int × Option Entity)
    (best : Option Entity) (hrel : FindTargetInv pt tt px py pz acc best)
    (hbound : ∀ e ∈ es, IsNavTarget e.bhvr tt = true →
      specTargetScore pt px py pz e < 999999999) :
    FindTargetInv pt tt px py pz
      (es.foldl (findTargetStep pt tt px py pz) acc)
      ((es.filter (fun e => IsNavTarget e.bhvr tt)).foldl
        (specSelectStep pt px py pz) best) := by
  induction es generalizing acc best with
  | nil => simpa using hrel
  | cons e es ih =>
    rw [List.foldl_cons]
    by_cases hq : IsNavTarget e.bhvr tt = true
    · rw [List.filter_cons_of_pos (by simpa using hq), List.foldl_cons]
      have hbound' : ∀ e' ∈ es, IsNavTarget e'.bhvr tt = true →
          specTargetScore pt px py pz e' < 999999999 :=
        fun e' he' => hbound e' (List.mem_cons_of_mem _ he')
      have hbe : specTargetScore pt px py pz e < 999999999 :=
        hbound e (List.mem_cons_self e es) hq
      apply ih _ _ _ hbound'
      rw [findTargetStep_of_pos pt tt px py pz acc e hq]
      rcases hrel with ⟨h1, h2, h3⟩ | ⟨b, hb1, hb2, hbq, hbs, hbd, hblt⟩
      · rw [h2]
        rw [if_pos (by rw [h3]; exact hbe)]
        exact Or.inr ⟨e, rfl, rfl, hq, rfl, rfl, hbe⟩
      · rw [hb2]
        by_cases hlt : specTargetScore pt px py pz e <
            specTargetScore pt px py pz b
        · rw [if_pos (by rw [hbs]; exact hlt)]
          have : specSelectStep pt px py pz (some b) e = some e := by
            simp [specSelectStep, hlt]
          rw [this]
          exact Or.inr ⟨e, rfl, rfl, hq, rfl, rfl, hbe⟩
        · rw [if_neg (by rw [hbs]; exact hlt)]
          have : specSelectStep pt px py pz (some b) e = some b := by
            simp [specSelectStep, hlt]
          rw [this]
          exact Or.inr ⟨b, hb1, rfl, hbq, hbs, hbd, hblt⟩
    · rw [List.filter_cons_of_neg (by simpa using hq)]
      have hbound' : ∀ e' ∈ es, IsNavTarget e'.bhvr tt = true →
          specTargetScore pt px py pz e' < 999999999 :=
        fun e' he' => hbound e' (List.mem_cons_of_mem _ he')
      apply ih _ _ _ hbound'
      rw [findTargetStep_of_neg pt tt px py pz acc e
        (Bool.not_eq_true _ ▸ eq_false_of_ne_true hq)]
      exact hrel

/-- Folding the spec-side step from an incumbent always lands on some
element of the list or the incumbent, with a score that is a lower
bound on both. -/
theorem specFold_some (pt : PlayerType) (px py pz : Int) (l : List Entity)
    (b : Entity) :
    ∃ c, l.foldl (specSelectStep pt px py pz) (some b) = some c ∧
      (c = b ∨ c ∈ l) ∧
      specTargetScore pt px py pz c ≤ specTargetScore pt px py pz b ∧
      ∀ e ∈ l, specTargetScore pt px py pz c ≤ specTargetScore pt px py pz e := by
  induction l generalizing b with
  | nil => exact ⟨b, rfl, Or.inl rfl, le_refl _, by simp⟩
  | cons e l ih =>
    rw [List.foldl_cons]
    by_cases hlt : specTargetScore pt px py pz e < specTargetScore pt px py pz b
    · have hstep : specSelectStep pt px py pz (some b) e = some e := by
        simp [specSelectStep, hlt]
      rw [hstep]
      obtain ⟨c, hc, hmem, hle, hall⟩ := ih e
      refine ⟨c, hc, ?_, le_trans hle (le_of_lt hlt), ?_⟩
      · rcases hmem with rfl | h
        · exact Or.inr (List.mem_cons_self _ _)
        · exact Or.inr (List.mem_cons_of_mem _ h)
      · intro e' he'
        rcases List.mem_cons.mp he' with rfl | h
        · exact hle
        · exact hall e' h
    · have hstep : specSelectStep pt px py pz (some b) e = some b := by
        simp [specSelectStep, hlt]
      rw [hstep]
      obtain ⟨c, hc, hmem, hle, hall⟩ := ih b
      refine ⟨c, hc, ?_, hle, ?_⟩
      · rcases hmem with rfl | h
        · exact Or.inl rfl
        · exact Or.inr (List.mem_cons_of_mem _ h)
      · intro e' he'
        rcases List.mem_cons.mp he' with rfl | h
        · exact le_trans hle (not_lt.mp hlt)
        · exact hall e' h

/-- Folding the spec-side step keeps the incumbent when nothing in the
list beats it strictly. -/
theorem specFold_keep (pt : PlayerType) (px py pz : Int) (l : List Entity)
    (b : Entity)
    (h : ∀ e ∈ l, ¬ specTargetScore pt px py pz e < specTargetScore pt px py pz b) :
    l.foldl (specSelectStep pt px py pz) (some b) = some b := by
  induction l with
  | nil => rfl
  | cons e l ih =>
    rw [List.foldl_cons]
    have hstep : specSelectStep pt px py pz (some b) e = some b := by
      simp [specSelectStep, h e (List.mem_cons_self e l)]
    rw [hstep]
    exact ih fun e' he' => h e' (List.mem_cons_of_mem _ he')

/-- The spec selector returns nothing exactly when no entity qualifies
for the requested category. -/
theorem specSelect_none_iff (pt : PlayerType) (tt : NavTargetType)
    (px py pz : Int) (es : List Entity) :
    specSelectTarget pt tt px py pz es = none ↔
      ∀ e ∈ es, IsNavTarget e.bhvr tt = false := by
  unfold specSelectTarget
  rcases hf : es.filter (fun e => IsNavTarget e.bhvr tt) with _ | ⟨e, l⟩
  · rw [hf]
    constructor
    · intro _ e he
      have := List.filter_eq_nil_iff.mp hf e he
      simpa using this
    · intro _
      rfl
  · rw [hf, List.foldl_cons]
    have hstep : specSelectStep pt px py pz none e = some e := rfl
    rw [hstep]
    obtain ⟨c, hc, -, -, -⟩ := specFold_some pt px py pz l e
    rw [hc]
    constructor
    · intro h
      exact absurd h (by simp)
    · intro h
      have he : e ∈ es.filter (fun e => IsNavTarget e.bhvr tt) := by
        rw [hf]
        exact List.mem_cons_self e l
      have := List.mem_filter.mp he
      rw [h e this.1] at this
      exact absurd this.2 (by simp)

/-- When the spec selector picks an entity, that entity qualifies, is in
the list, and minimizes the selection score among all qualifying
entities. -/
theorem specSelect_min (pt : PlayerType) (tt : NavTargetType)
    (px py pz : Int) (es : List Entity) (e : Entity)
    (h : specSelectTarget pt tt px py pz es = some e) :
    e ∈ es ∧ IsNavTarget e.bhvr tt = true ∧
      ∀ e' ∈ es, IsNavTarget e'.bhvr tt = true →
        specTargetScore pt px py pz e ≤ specTargetScore pt px py pz e' := by
  unfold specSelectTarget at h
  rcases hf : es.filter (fun e => IsNavTarget e.bhvr tt) with - | ⟨e0, l⟩
  · rw [hf] at h
    exact absurd h (by simp)
  · rw [hf, List.foldl_cons] at h
    have hstep : specSelectStep pt px py pz none e0 = some e0 := rfl
    rw [hstep] at h
    obtain ⟨c, hc, hmem, hle, hall⟩ := specFold_some pt px py pz l e0
    rw [hc] at h
    obtain rfl : c = e := by injection h
    have hcf : c ∈ es.filter (fun e => IsNavTarget e.bhvr tt) := by
      rw [hf]
      rcases hmem with rfl | hmem
      · exact List.mem_cons_self _ _
      · exact List.mem_cons_of_mem _ hmem
    obtain ⟨hces, hcq⟩ := List.mem_filter.mp hcf
    refine ⟨hces, hcq, ?_⟩
    intro e' he' hq'
    have he'f : e' ∈ es.filter (fun e => IsNavTarget e.bhvr tt) :=
      List.mem_filter.mpr ⟨he', hq'⟩
    rw [hf] at he'f
    rcases List.mem_cons.mp he'f with rfl | he'l
    · exact hle
    · exact hall e' he'l

/-- When the head of the enumeration qualifies and weakly minimizes the
score, it is selected: ties are broken in favour of the earlier
entity. -/
theorem specSelect_first_wins (pt : PlayerType) (tt : NavTargetType)
    (px py pz : Int) (e : Entity) (es : List Entity)
    (hq : IsNavTarget e.bhvr tt = true)
    (hmin : ∀ e' ∈ es, IsNavTarget e'.bhvr tt = true →
      specTargetScore pt px py pz e ≤ specTargetScore pt px py pz e') :
    specSelectTarget pt tt px py pz (e :: es) = some e := by
  unfold specSelectTarget
  rw [List.filter_cons_of_pos (by simpa using hq), List.foldl_cons]
  have hstep : specSelectStep pt px py pz none e = some e := rfl
  rw [hstep]
  apply specFold_keep
  intro e' he'
  obtain ⟨he's, hq'⟩ := List.mem_filter.mp he'
  exact not_lt.mpr (hmin e' he's hq')

/-- Claim C5: for every requested category, `AutoNav_FindTarget` keeps
the entities whose behaviour type belongs to the category and selects
the one minimizing `score = distance - priority_bonus`, with ties going
to the first enumerated entity; when no entity qualifies it stores the
valid no-target outcome (`target_name = NULL`, `target_distance = 0`);
and the priority bonus is 5000 for hostile entities and 2000 for
mission-relevant interactives — both larger than the 1500 for doors
and the 0 for plain lifts — and zero for every other type.  (The
hypothesis keeps every qualifying score below the scan's `999999999`
sentinel; any in-game coordinate satisfies it, since the C distance
computation would overflow long before reaching it.) -/
theorem C5_find_target (pt : PlayerType) (px py pz : Int) (es : List Entity)
    (s : AutoNavSt)
    (hbound : ∀ e ∈ es, IsNavTarget e.bhvr s.target_type = true →
      specTargetScore pt px py pz e < 999999999) :
    (∀ e : Entity, specSelectTarget pt s.target_type px py pz es = some e →
      AutoNav_FindTarget true pt px py pz es s =
        { s with
          target_x := e.x
          target_y := e.y
          target_z := e.z
          target_distance := Accessibility_GetDistance px py pz e.x e.y e.z
          target_name := some (GetNavTargetName e.bhvr) }) ∧
    (specSelectTarget pt s.target_type px py pz es = none →
      AutoNav_FindTarget true pt px py pz es s =
        { s with target_name := none, target_distance := 0 }) ∧
    (specSelectTarget pt s.target_type px py pz es = none ↔
      ∀ e ∈ es, IsNavTarget e.bhvr s.target_type = false) ∧
    (∀ e : Entity, specSelectTarget pt s.target_type px py pz es = some e →
      e ∈ es ∧ IsNavTarget e.bhvr s.target_type = true ∧
        ∀ e' ∈ es, IsNavTarget e'.bhvr s.target_type = true →
          specTargetScore pt px py pz e ≤ specTargetScore pt px py pz e') ∧
    (∀ (e : Entity) (rest : List Entity),
      IsNavTarget e.bhvr s.target_type = true →
      (∀ e' ∈ rest, IsNavTarget e'.bhvr s.target_type = true →
        specTargetScore pt px py pz e ≤ specTargetScore pt px py pz e') →
      specSelectTarget pt s.target_type px py pz (e :: rest) = some e) ∧
    (∀ (pt' : PlayerType) (b : BehaviourType),
      (IsEntityThreat b pt' = true → specPriorityBonus pt' b = 5000) ∧
      ((b = .binarySwitch ∨ b = .linkSwitch ∨ b = .database ∨ b = .generator) →
        specPriorityBonus pt' b = 2000) ∧
      ((b = .proximityDoor ∨ b = .liftDoor ∨ b = .switchDoor) →
        specPriorityBonus pt' b = 1500) ∧
      (IsEntityThreat b pt' = false →
        ¬(b = .binarySwitch ∨ b = .linkSwitch ∨ b = .database ∨ b = .generator) →
        ¬(b = .proximityDoor ∨ b = .liftDoor ∨ b = .switchDoor) →
        specPriorityBonus pt' b = 0) ∧
      specPriorityBonus pt' .lift = 0 ∧
      (IsEntityThreat b pt' = true →
        specPriorityBonus pt' .proximityDoor < specPriorityBonus pt' b ∧
          specPriorityBonus pt' .lift < specPriorityBonus pt' b) ∧
      specPriorityBonus pt' .proximityDoor < specPriorityBonus pt' .binarySwitch ∧
      specPriorityBonus pt' .lift < specPriorityBonus pt' .proximityDoor) := by
  have hinv : FindTargetInv pt s.target_type px py pz
      (AutoNav_FindTargetLoop pt s.target_type px py pz es)
      (specSelectTarget pt s.target_type px py pz es) :=
    findTargetLoop_invariant pt s.target_type px py pz es
      (999999999, 999999999, none) none (Or.inl ⟨rfl, rfl, rfl⟩) hbound
  refine ⟨?_, ?_, specSelect_none_iff pt s.target_type px py pz es,
    fun e h => specSelect_min pt s.target_type px py pz es e h,
    fun e rest hq hmin => specSelect_first_wins pt s.target_type px py pz e rest hq hmin,
    by intro pt' b; cases pt' <;> cases b <;> decide⟩
  · intro e hsel
    rcases hL : AutoNav_FindTargetLoop pt s.target_type px py pz es with ⟨sc, ds, ob⟩
    rw [hL, hsel] at hinv
    rcases hinv with ⟨-, h2, -⟩ | ⟨b, hb1, hb2, -, -, hbd, -⟩
    · exact absurd h2 (by simp)
    · obtain rfl : e = b := by injection hb2
      simp only at hb1 hbd
      subst hb1
      simp only [AutoNav_FindTarget, Bool.not_true, Bool.false_eq_true, if_false,
        hL, hbd]
  · intro hsel
    rcases hL : AutoNav_FindTargetLoop pt s.target_type px py pz es with ⟨sc, ds, ob⟩
    rw [hL, hsel] at hinv
    rcases hinv with ⟨h1, -, -⟩ | ⟨b, -, hb2, -, -, -, -⟩
    · simp only at h1
      subst h1
      simp only [AutoNav_FindTarget, Bool.not_true, Bool.false_eq_true, if_false, hL]
    · exact absurd hb2 (by simp)

/-- Claim C5 witness: among a door at distance 1000 (score −500) and a
switch at distance 2000 (score 0), the door is selected, its position
and distance stored and its display name reported. -/
theorem C5_find_target_witness :
    (∀ e ∈ ([{ bhvr := .proximityDoor, x := 0, y := 0, z := 1000 },
        { bhvr := .binarySwitch, x := 0, y := 0, z := 2000 }] : List Entity),
      IsNavTarget e.bhvr
          ({ AutoNav_Init with target_type := NavTargetType.interactive } :
            AutoNavSt).target_type = true →
      specTargetScore PlayerType.marine 0 0 0 e < 999999999) ∧
    (AutoNav_FindTarget true PlayerType.marine 0 0 0
        [{ bhvr := .proximityDoor, x := 0, y := 0, z := 1000 },
          { bhvr := .binarySwitch, x := 0, y := 0, z := 2000 }]
        { AutoNav_Init with target_type := NavTargetType.interactive }).target_name =
      some "door" ∧
    (AutoNav_FindTarget true PlayerType.marine 0 0 0
        [{ bhvr := .proximityDoor, x := 0, y := 0, z := 1000 },
          { bhvr := .binarySwitch, x := 0, y := 0, z := 2000 }]
        { AutoNav_Init with target_type := NavTargetType.interactive }).target_distance =
      1000 := by
  have hd1 : Accessibility_GetDistance 0 0 0 0 0 1000 = 1000 := by
    have h1 : (((0 : Int) - 0) ^ 2 + ((0 : Int) - 0) ^ 2 +
        ((1000 : Int) - 0) ^ 2).toNat = 1000 ^ 2 := by
      norm_num
      try rfl
    unfold Accessibility_GetDistance
    rw [h1, Nat.sqrt_eq']
    norm_num
  have hd2 : Accessibility_GetDistance 0 0 0 0 0 2000 = 2000 := by
    have h1 : (((0 : Int) - 0) ^ 2 + ((0 : Int) - 0) ^ 2 +
        ((2000 : Int) - 0) ^ 2).toNat = 2000 ^ 2 := by
      norm_num
      try rfl
    unfold Accessibility_GetDistance
    rw [h1, Nat.sqrt_eq']
    norm_num
  have hs1 : specTargetScore PlayerType.marine 0 0 0
      { bhvr := .proximityDoor, x := 0, y := 0, z := 1000 } = -500 := by
    show Accessibility_GetDistance 0 0 0 0 0 1000 -
      specPriorityBonus PlayerType.marine BehaviourType.proximityDoor = -500
    rw [hd1,
      show specPriorityBonus PlayerType.marine BehaviourType.proximityDoor = 1500
        from by decide]
    norm_num
  have hs2 : specTargetScore PlayerType.marine 0 0 0
      { bhvr := .binarySwitch, x := 0, y := 0, z := 2000 } = 0 := by
    show Accessibility_GetDistance 0 0 0 0 0 2000 -
      specPriorityBonus PlayerType.marine BehaviourType.binarySwitch = 0
    rw [hd2,
      show specPriorityBonus PlayerType.marine BehaviourType.binarySwitch = 2000
        from by decide]
    norm_num
  have hbound : ∀ e ∈ ([{ bhvr := .proximityDoor, x := 0, y := 0, z := 1000 },
      { bhvr := .binarySwitch, x := 0, y := 0, z := 2000 }] : List Entity),
      IsNavTarget e.bhvr
          ({ AutoNav_Init with target_type := NavTargetType.interactive } :
            AutoNavSt).target_type = true →
      specTargetScore PlayerType.marine 0 0 0 e < 999999999 := by
    intro e he hq
    rcases List.mem_cons.mp he with rfl | he
    · rw [hs1]
      norm_num
    · rcases List.mem_cons.mp he with rfl | he
      · rw [hs2]
        norm_num
      · exact absurd he (List.not_mem_nil _)
  have hsel : specSelectTarget PlayerType.marine NavTargetType.interactive 0 0 0
      [{ bhvr := .proximityDoor, x := 0, y := 0, z := 1000 },
        { bhvr := .binarySwitch, x := 0, y := 0, z := 2000 }] =
      some { bhvr := .proximityDoor, x := 0, y := 0, z := 1000 } := by
    apply specSelect_first_wins
    · decide
    · intro e' he' hq'
      rcases List.mem_cons.mp he' with rfl | he'
      · rw [hs1, hs2]
        norm_num
      · exact absurd he' (List.not_mem_nil _)
  obtain ⟨hsome, -, -, -, -, -⟩ :=
    C5_find_target PlayerType.marine 0 0 0
      [{ bhvr := .proximityDoor, x := 0, y := 0, z := 1000 },
        { bhvr := .binarySwitch, x := 0, y := 0, z := 2000 }]
      { AutoNav_Init with target_type := NavTargetType.interactive } hbound
  have heq := hsome { bhvr := .proximityDoor, x := 0, y := 0, z := 1000 } hsel
  refine ⟨hbound, ?_, ?_⟩
  · rw [heq]
    rfl
  · rw [heq]
    exact hd1

/-- A stuck run with counter `k ≤ 90` behaves like a base-91 counter:
after the run the counter is `(k + n) % 91` and the block has issued
`(k + n) / 91` additional escalations. -/
theorem runStuckTicks_formula (ds : List Int) (st : StuckState) (k : Nat)
    (hk : st.stuckCounter = (k : Int)) (hk90 : k ≤ 90)
    (hstuck : ∀ d ∈ ds, d < 10000) :
    (runStuckTicks ds st).stuckCounter = (((k + ds.length) % 91 : Nat) : Int) ∧
    (runStuckTicks ds st).escalations = st.escalations + (k + ds.length) / 91 := by
  induction ds generalizing st k with
  | nil =>
    rw [runStuckTicks]
    simp only [List.foldl_nil, List.length_nil, Nat.add_zero]
    rw [Nat.mod_eq_of_lt (by omega), Nat.div_eq_of_lt (by omega)]
    exact ⟨hk, by omega⟩
  | cons d ds ih =>
    have hd : d < 10000 := hstuck d (List.mem_cons_self d ds)
    have hstep : stuckDetectTick true false d false false st =
        if 90 < st.stuckCounter + 1 then
          { stuckCounter := 0, escalations := st.escalations + 1 }
        else { stuckCounter := st.stuckCounter + 1, escalations := st.escalations } := by
      simp [stuckDetectTick, hd]
    have hrun : runStuckTicks (d :: ds) st =
        runStuckTicks ds (stuckDetectTick true false d false false st) := rfl
    rw [hrun, hstep]
    by_cases h90 : 90 < st.stuckCounter + 1
    · rw [if_pos h90]
      have hk' : k = 90 := by omega
      obtain ⟨hA, hB⟩ := ih { stuckCounter := 0, escalations := st.escalations + 1 } 0
        rfl (by omega) (fun d' hd' => hstuck d' (List.mem_cons_of_mem _ hd'))
      have hp : ({ stuckCounter := 0, escalations := st.escalations + 1 } :
          StuckState).escalations = st.escalations + 1 := rfl
      rw [hp] at hB
      refine ⟨?_, ?_⟩
      · rw [hA]
        congr 1
        rw [List.length_cons]
        omega
      · rw [hB]
        rw [List.length_cons]
        omega
    · rw [if_neg h90]
      have hk1 : k + 1 ≤ 90 := by omega
      obtain ⟨hA, hB⟩ := ih
        { stuckCounter := st.stuckCounter + 1, escalations := st.escalations } (k + 1)
        (by rw [hk]; push_cast; ring) hk1
        (fun d' hd' => hstuck d' (List.mem_cons_of_mem _ hd'))
      have hp : ({ stuckCounter := st.stuckCounter + 1, escalations := st.escalations } :
          StuckState).escalations = st.escalations := rfl
      rw [hp] at hB
      refine ⟨?_, ?_⟩
      · rw [hA]
        congr 1
        rw [List.length_cons]
        omega
      · rw [hB]
        rw [List.length_cons]
        omega

/-- Claim C4: with `auto_move` on and the target not reached, a
synthetic run of ticks each moving less than 10000 squared units, of
length between 91 and 181, triggers exactly one escalation (the
counter is reset to zero on escalation, so remaining stuck does not
re-trigger every tick); the tick that crosses the 90-tick threshold
resets the counter to zero; a tick moving at least 10000 squared units
resets the counter without escalating; and in general a stuck run of
`n` ticks escalates exactly `n / 91` times. -/
theorem C4_stuck_escalation :
    (∀ (ds : List Int) (st : StuckState), st.stuckCounter = 0 →
      (∀ d ∈ ds, d < 10000) → 91 ≤ ds.length → ds.length ≤ 181 →
      (runStuckTicks ds st).escalations = st.escalations + 1) ∧
    (∀ (st : StuckState) (d : Int), st.stuckCounter = 90 → d < 10000 →
      stuckDetectTick true false d false false st =
        { stuckCounter := 0, escalations := st.escalations + 1 }) ∧
    (∀ (st : StuckState) (d : Int), 10000 ≤ d →
      stuckDetectTick true false d false false st =
        { stuckCounter := 0, escalations := st.escalations }) ∧
    (∀ (ds : List Int) (st : StuckState), st.stuckCounter = 0 →
      (∀ d ∈ ds, d < 10000) →
      (runStuckTicks ds st).escalations = st.escalations + ds.length / 91) := by
  refine ⟨?_, ?_, ?_, ?_⟩
  · intro ds st h0 hstuck hlo hhi
    have h := (runStuckTicks_formula ds st 0 (by rw [h0]; rfl) (by omega) hstuck).2
    rw [h]
    congr 1
    omega
  · intro st d h90 hd
    simp [stuckDetectTick, hd, h90]
  · intro st d hd
    simp [stuckDetectTick, not_lt.mpr hd]
  · intro ds st h0 hstuck
    have h := (runStuckTicks_formula ds st 0 (by rw [h0]; rfl) (by omega) hstuck).2
    rw [h]
    congr 1
    omega

/-- Claim C4 witness: 91 consecutive zero-displacement ticks from a
fresh counter escalate exactly once. -/
theorem C4_stuck_escalation_witness :
    (∀ d ∈ List.replicate 91 (0 : Int), d < 10000) ∧
    (runStuckTicks (List.replicate 91 (0 : Int))
        { stuckCounter := 0, escalations := 0 }).escalations = 0 + 1 :=
  ⟨by simp,
    C4_stuck_escalation.1 (List.replicate 91 (0 : Int))
      { stuckCounter := 0, escalations := 0 } rfl (by simp) (by simp) (by simp)⟩

/-- Claim C7 (counterexample): the claim's pitch formula
`base * (1 + alignment_bonus) + 0.3 * v` gives 1.6 on the navigation
channel at `a = 0, v = 1` (base 1, on-target bonus 0.3), but the code
adds `0.5 * v` there and produces 1.8. -/
theorem C7_counterexample :
    NavTone_Pitch 0 1 = 9 / 5 ∧
    (1 : ℚ) * (1 + navAlignmentBonus 0) + 3 / 10 * 1 = 8 / 5 ∧
    (9 / 5 : ℚ) ≠ 8 / 5 := by
  refine ⟨?_, ?_, by norm_num⟩
  · norm_num [NavTone_Pitch]
  · norm_num [navAlignmentBonus]

/-- The sequential low/high clamp of the C code written as `min`/`max`. -/
theorem clamp_eq (lo hi x : ℚ) (h : lo ≤ hi) :
    (if hi < (if x < lo then lo else x) then hi else (if x < lo then lo else x)) =
      min hi (max lo x) := by
  rcases lt_or_le x lo with h1 | h1
  · rw [if_pos h1, if_neg (not_lt.mpr h), max_eq_left (le_of_lt h1), min_eq_right h]
  · rw [if_neg (not_lt.mpr h1), max_eq_right h1]
    rcases lt_or_le hi x with h2 | h2
    · rw [if_pos h2, min_eq_left (le_of_lt h2)]
    · rw [if_neg (not_lt.mpr h2), min_eq_right h2]

/-- The navigation-tone pitch is the clamp to `[0.5, 2]` of
`1 * (1 + alignment_bonus absAngle) + 0.5 * v`. -/
theorem navTone_pitch_eq (a v : ℚ) :
    NavTone_Pitch a v =
      min 2 (max (1 / 2)
        (1 * (1 + navAlignmentBonus (if a < 0 then -a else a)) + v * (1 / 2))) := by
  have h1 : (1 : ℚ) * (1 + navAlignmentBonus (if a < 0 then -a else a)) + v * (1 / 2)
      = 1 + navAlignmentBonus (if a < 0 then -a else a) + v * (1 / 2) := by ring
  rw [h1, ← clamp_eq (1 / 2) 2 _ (by norm_num)]
  simp only [NavTone_Pitch, navAlignmentBonus]
  split_ifs <;> first | rfl | linarith

/-- The radar-tone pitch is the clamp to `[0.4, 2.5]` of
`base + 0.3 * v`; it has no horizontal-alignment term. -/
theorem radarTone_pitch_eq (p v : ℚ) :
    RadarTone_Pitch p v = min (5 / 2) (max (2 / 5) (p + v * (3 / 10))) := by
  rw [← clamp_eq (2 / 5) (5 / 2) _ (by norm_num)]
  simp only [RadarTone_Pitch]

/-- Claim C7 (amended): the navigation tone's stereo position is
monotonic in `a`; its pitch is the clamp to `[0.5, 2.0]` of
`1 * (1 + alignment_bonus(|a|)) + 0.5 * v` — the vertical coefficient
is 0.5 on this channel, not 0.3 — with the alignment bonus largest at
`a = 0` and non-increasing in `|a|`, so for fixed `v` the pitch is
maximal at `a = 0`; the radar tone's pitch is the clamp to `[0.4, 2.5]`
of `base + 0.3 * v`, with no alignment bonus. -/
theorem C7_amended :
    (∀ a b : ℚ, a ≤ b → NavTone_StereoX a ≤ NavTone_StereoX b) ∧
    (∀ a v : ℚ, NavTone_Pitch a v =
      min 2 (max (1 / 2)
        (1 * (1 + navAlignmentBonus (if a < 0 then -a else a)) + v * (1 / 2)))) ∧
    (∀ x y : ℚ, 0 ≤ x → x ≤ y → navAlignmentBonus y ≤ navAlignmentBonus x) ∧
    (∀ a v : ℚ, NavTone_Pitch a v ≤ NavTone_Pitch 0 v) ∧
    (∀ a v : ℚ, 1 / 2 ≤ NavTone_Pitch a v ∧ NavTone_Pitch a v ≤ 2) ∧
    (∀ p v : ℚ, RadarTone_Pitch p v = min (5 / 2) (max (2 / 5) (p + v * (3 / 10)))) ∧
    (∀ p v : ℚ, 2 / 5 ≤ RadarTone_Pitch p v ∧ RadarTone_Pitch p v ≤ 5 / 2) := by
  have hbonus_le : ∀ x : ℚ, navAlignmentBonus x ≤ 3 / 10 := by
    intro x
    unfold navAlignmentBonus
    split_ifs <;> norm_num
  refine ⟨?_, navTone_pitch_eq, ?_, ?_, ?_, radarTone_pitch_eq, ?_⟩
  · intro a b hab
    unfold NavTone_StereoX
    linarith
  · intro x y hx hxy
    unfold navAlignmentBonus
    split_ifs <;> linarith
  · intro a v
    rw [navTone_pitch_eq, navTone_pitch_eq]
    have h0 : (if (0 : ℚ) < 0 then -(0 : ℚ) else 0) = 0 := by norm_num
    rw [h0]
    have hb : navAlignmentBonus (if a < 0 then -a else a) ≤ navAlignmentBonus 0 := by
      have : navAlignmentBonus 0 = 3 / 10 := by norm_num [navAlignmentBonus]
      rw [this]
      exact hbonus_le _
    have hinner : 1 * (1 + navAlignmentBonus (if a < 0 then -a else a)) + v * (1 / 2) ≤
        1 * (1 + navAlignmentBonus 0) + v * (1 / 2) := by linarith
    exact min_le_min (le_refl 2) (max_le_max (le_refl (1 / 2)) hinner)
  · intro a v
    rw [navTone_pitch_eq]
    constructor
    · rcases le_or_lt 2 (max (1 / 2)
          (1 * (1 + navAlignmentBonus (if a < 0 then -a else a)) + v * (1 / 2))) with h | h
      · rw [min_eq_left h]
        norm_num
      · rw [min_eq_right (le_of_lt h)]
        exact le_max_left _ _
    · exact min_le_left _ _
  · intro p v
    rw [radarTone_pitch_eq]
    constructor
    · rcases le_or_lt (5 / 2 : ℚ) (max (2 / 5) (p + v * (3 / 10))) with h | h
      · rw [min_eq_left h]
        norm_num
      · rw [min_eq_right (le_of_lt h)]
        exact le_max_left _ _
    · exact min_le_left _ _

/-- Claim C7 witness: the stereo position and bonus-decay parts of the
amended claim at `a = -1 ≤ 1` and `|a|` values `0 ≤ 1`. -/
theorem C7_amended_witness :
    ((-1 : ℚ) ≤ 1 ∧ NavTone_StereoX (-1) ≤ NavTone_StereoX 1) ∧
    ((0 : ℚ) ≤ 0 ∧ (0 : ℚ) ≤ 1 ∧ navAlignmentBonus 1 ≤ navAlignmentBonus 0) :=
  ⟨⟨by norm_num, C7_amended.1 (-1) 1 (by norm_num)⟩,
    ⟨le_refl 0, by norm_num, C7_amended.2.2.1 0 1 (le_refl 0) (by norm_num)⟩⟩

/-- Claim C10: the arrival flags `arrival_announced` and
`target_reached` are preserved by `AutoNav_FindTarget`,
`AutoNav_Toggle` and `AutoNav_CycleTargetType`, and cleared only by
`AutoNav_Init`; once `target_reached` is set the stuck/oscillation/loop
block issues no escalation and keeps the counter at zero; and with
`arrival_announced` set, re-acquiring a target never produces another
arrival announcement. -/
theorem C10_arrival_flags_persist (p : Bool) (pt : PlayerType) (px py pz : Int)
    (es : List Entity) (s : AutoNavSt) :
    ((AutoNav_FindTarget p pt px py pz es s).arrival_announced =
        s.arrival_announced ∧
      (AutoNav_FindTarget p pt px py pz es s).target_reached = s.target_reached) ∧
    ((AutoNav_Toggle p pt px py pz es s).arrival_announced =
        s.arrival_announced ∧
      (AutoNav_Toggle p pt px py pz es s).target_reached = s.target_reached) ∧
    ((AutoNav_CycleTargetType p pt px py pz es s).arrival_announced =
        s.arrival_announced ∧
      (AutoNav_CycleTargetType p pt px py pz es s).target_reached =
        s.target_reached) ∧
    (AutoNav_Init.arrival_announced = false ∧
      AutoNav_Init.target_reached = false) ∧
    (∀ (am osc lp : Bool) (d : Int) (st : StuckState),
      (stuckDetectTick am true d osc lp st).escalations = st.escalations ∧
        (stuckDetectTick am true d osc lp st).stuckCounter = 0) ∧
    (s.arrival_announced = true →
      (AutoNav_CheckArrival (AutoNav_FindTarget p pt px py pz es s)).2 = none) := by
  have hFT : ∀ s' : AutoNavSt,
      (AutoNav_FindTarget p pt px py pz es s').arrival_announced =
        s'.arrival_announced ∧
      (AutoNav_FindTarget p pt px py pz es s').target_reached = s'.target_reached := by
    intro s'
    cases p with
    | false => exact ⟨rfl, rfl⟩
    | true =>
      rcases hL : AutoNav_FindTargetLoop pt s'.target_type px py pz es
        with ⟨sc, ds, ob⟩
      cases ob <;> simp [AutoNav_FindTarget, hL]
  refine ⟨hFT s, ?_, ?_, ⟨rfl, rfl⟩, ?_, ?_⟩
  · cases hb : s.enabled
    · simp only [AutoNav_Toggle, hb, Bool.not_false, if_true]
      exact hFT _
    · simp [AutoNav_Toggle, hb]
  · unfold AutoNav_CycleTargetType
    exact hFT { s with target_type := cycleTargetType s.target_type }
  · intro am osc lp d st
    cases am <;> simp [stuckDetectTick]
  · intro h
    have h' : (AutoNav_FindTarget p pt px py pz es s).arrival_announced = true := by
      rw [(hFT s).1, h]
    cases he : (AutoNav_FindTarget p pt px py pz es s).enabled <;>
      simp [AutoNav_CheckArrival, he, h']

/-- Claim C8 (counterexample): with the enabled flag cleared while the
movement sinks still hold the values autonavigation wrote on the
previous tick (forward 13000, strafe 8000, turn 30), the next
`AutoNav_Update` tick returns before the movement application and
leaves all three values unchanged — it does not zero them as the claim
states. -/
theorem C8_counterexample :
    (AutoNav_Update
        { available := true, playerPresent := true, psPresent := true,
          playerType := PlayerType.marine, playerX := 0, playerY := 0, playerZ := 0,
          entities := [], now := 0, targetDistRaw := 0, verticalRatioRaw := 0,
          cross := 0, dot := 0, obstacleDistance := 0, obstacleType := "wall",
          leftClear := 0, rightClear := 0, oscillating := false, looping := false,
          loopSize := 0, obstrForwardBlocked := false, obstrForwardDistance := 0,
          obstrForwardClearable := false, obstrForwardJumpable := false }
        { AutoNav_Init with auto_move := true, target_name := some "door" }
        { navToneFrameCounter := 0, positionRecordCounter := 0,
          progressCheckCounter := 0, toneCounter := 0, avoidanceState := 0,
          avoidanceTimer := 0, stuckCounter := 0, lastPlayerX := 0,
          lastPlayerZ := 0, doorAnnouncedThisStop := false,
          smoothedTurnAmount := 0, backtrackFrames := 0 }
        { mvtMotionIncrement := 13000, mvtSideStepIncrement := 8000,
          angVelocityEulerY := 30, rqstJump := false }).2.2.1 =
      { mvtMotionIncrement := 13000, mvtSideStepIncrement := 8000,
        angVelocityEulerY := 30, rqstJump := false } ∧
    (13000 : Int) ≠ 0 ∧ (8000 : Int) ≠ 0 ∧ (30 : Int) ≠ 0 := by
  refine ⟨rfl, by norm_num, by norm_num, by norm_num⟩

/-- Claim C8 (amended): once the enabled flag is cleared,
`AutoNav_Update` returns at its first guard on the very next tick: it
performs no writes at all, so the engine stops driving movement but the
movement outputs keep whatever values were last written (zeroing them
is left to the host input layer). -/
theorem C8_disable_stops_writes (env : NavEnv) (s : AutoNavSt) (st : NavStatics)
    (ps : PlayerMove) (h : s.enabled = false) :
    AutoNav_Update env s st ps = (s, st, ps, none) := by
  simp [AutoNav_Update, h]

/-- Claim C8 witness: the amended no-write theorem applied at the
initial (disabled) state. -/
theorem C8_disable_stops_writes_witness :
    AutoNav_Init.enabled = false ∧
    AutoNav_Update
        { available := true, playerPresent := true, psPresent := true,
          playerType := PlayerType.marine, playerX := 0, playerY := 0, playerZ := 0,
          entities := [], now := 0, targetDistRaw := 0, verticalRatioRaw := 0,
          cross := 0, dot := 0, obstacleDistance := 0, obstacleType := "wall",
          leftClear := 0, rightClear := 0, oscillating := false, looping := false,
          loopSize := 0, obstrForwardBlocked := false, obstrForwardDistance := 0,
          obstrForwardClearable := false, obstrForwardJumpable := false }
        AutoNav_Init
        { navToneFrameCounter := 0, positionRecordCounter := 0,
          progressCheckCounter := 0, toneCounter := 0, avoidanceState := 0,
          avoidanceTimer := 0, stuckCounter := 0, lastPlayerX := 0,
          lastPlayerZ := 0, doorAnnouncedThisStop := false,
          smoothedTurnAmount := 0, backtrackFrames := 0 }
        { mvtMotionIncrement := 13000, mvtSideStepIncrement := 8000,
          angVelocityEulerY := 30, rqstJump := false } =
      (AutoNav_Init,
        { navToneFrameCounter := 0, positionRecordCounter := 0,
          progressCheckCounter := 0, toneCounter := 0, avoidanceState := 0,
          avoidanceTimer := 0, stuckCounter := 0, lastPlayerX := 0,
          lastPlayerZ := 0, doorAnnouncedThisStop := false,
          smoothedTurnAmount := 0, backtrackFrames := 0 },
        { mvtMotionIncrement := 13000, mvtSideStepIncrement := 8000,
          angVelocityEulerY := 30, rqstJump := false }, none) :=
  ⟨rfl, C8_disable_stops_writes _ AutoNav_Init _ _ rfl⟩

/-- Claim C10 witness: after an arrival (flag set), re-running the
target scan on a fresh entity list produces no second announcement. -/
theorem C10_arrival_flags_persist_witness :
    ({ AutoNav_Init with arrival_announced := true } : AutoNavSt).arrival_announced
        = true ∧
    (AutoNav_CheckArrival
        (AutoNav_FindTarget true PlayerType.marine 0 0 0
          [{ bhvr := .proximityDoor, x := 0, y := 0, z := 1000 }]
          { AutoNav_Init with arrival_announced := true })).2 = none :=
  ⟨rfl,
    (C10_arrival_flags_persist true PlayerType.marine 0 0 0
        [{ bhvr := .proximityDoor, x := 0, y := 0, z := 1000 }]
        { AutoNav_Init with arrival_announced := true }).2.2.2.2.2 rfl⟩

end AvpAccess
